import Mathlib

/-!
Verification of `src/isolate/three_phase_task.h` (class `ivm::ThreePhaseTask`).

The header contains, textually, the full body of the dispatcher
`ThreePhaseTask::Run<async, T, Args...>` (lines 79-121), the field layout of
`CalleeInfo` (lines 30-39) and the declarations of `Phase2Runner`,
`Phase2RunnerIgnored` and `RunSync`.  The bodies of `RunSync`,
`Phase2Runner::Run`, `Phase2Runner::~Phase2Runner`, `Phase2RunnerIgnored::Run`
and the `CalleeInfo` constructor/destructor live in a translation unit that is
not part of the repository snapshot; where a definition models one of those
bodies its doc comment says so and follows the specification text.

The embedding abstracts a concrete task type `T` into a `TaskSpec`:
- Phase 1 is the constructor, which may throw a `js_runtime_error` (`Except`);
- Phase 2 mutates the task's internal state and may throw;
- Phase 3 converts the stored outcome into a value and may throw.

Two complementary models are given:
- `ThreePhase.Run` models the synchronous extent of the dispatcher: what is
  returned or thrown to the caller, the state of the promise at return time,
  and the exact work units placed on the target isolate's queue;
- `ThreePhase.trace` models a complete execution (the call plus the later
  draining of the scheduled work units) as a sequential list of events, which
  is what the happens-before, exactly-once and settlement claims are about.
-/

namespace ThreePhase

/-- A concrete operation (a subclass `T` of `ThreePhaseTask`), abstracted to
its three phases.  `σ` is the task's internal state, `ε` the payload of a
`js_runtime_error`, `α` the final `v8::Local<v8::Value>` result.
`phase1` is the constructor `T(args...)`; `phase2` is the virtual `Phase2()`
which stores its outcome into the state; `phase3` is the virtual `Phase3()`. -/
structure TaskSpec (σ ε α : Type) where
  phase1 : Except ε σ
  phase2 : σ → Except ε σ
  phase3 : σ → Except ε α

/-- State of the `v8::Promise` created by the async-with-result path. -/
inductive Promise (ε α : Type) where
  | pending
  | resolved (v : α)
  | rejected (e : ε)
  deriving Repr, DecidableEq

/-- The `RemoteTuple<v8::Promise::Resolver, v8::Context, v8::StackTrace>`
field of `CalleeInfo` (header line 31). -/
structure RemoteTuple (ρ κ τ : Type) where
  resolver : ρ
  context : κ
  stackTrace : τ
  deriving Repr, DecidableEq

/-- `CalleeInfo` (header lines 30-39): the references back to the original
isolate used after phase 2.  Its fields are the remote tuple and the
`node::async_context async` causality token. -/
structure CalleeInfo (ρ κ τ : Type) where
  remotes : RemoteTuple ρ κ τ
  asyncCtx : Nat
  deriving Repr, DecidableEq

/-- The `CalleeInfo` constructor.  Its parameter list (resolver, context,
stack trace) is in the header (lines 33-37); that its body also records the
causality token is Modelled from the spec: the capsule captures "an opaque
causality token linking the resumed work back to the originating call". -/
def CalleeInfo.make (r : ρ) (c : κ) (s : τ) (tok : Nat) : CalleeInfo ρ κ τ :=
  { remotes := { resolver := r, context := c, stackTrace := s }, asyncCtx := tok }

/-- Modelled from the spec: the body of `CalleeInfo::~CalleeInfo` is in the
missing translation unit; per the spec "destruction releases these
references".  The model returns the remote references given up. -/
def CalleeInfo.dtorReleases (ci : CalleeInfo ρ κ τ) : ρ × κ × τ :=
  (ci.remotes.resolver, ci.remotes.context, ci.remotes.stackTrace)

/-- A work unit placed on an isolate's task queue via `ScheduleTask`.
`Phase2Runner` bundles the task together with a `CalleeInfo` (header lines
44-57); `Phase2RunnerIgnored` bundles only the task (header lines 62-66).
Inside one invocation the resolver is the invocation's unique promise, so its
slot in the capsule is `Unit`. -/
inductive WorkUnit (σ κ τ : Type) where
  | phase2Runner (task : σ) (info : CalleeInfo Unit κ τ)
  | phase2RunnerIgnored (task : σ)
  deriving Repr, DecidableEq

/-- What `Run` hands back to its caller, a `v8::Local<v8::Value>`:
the promise (async = 1), `v8::Undefined` (async = 2), or the direct value
from `RunSync`. -/
inductive Ret (α : Type) where
  | promiseHandle
  | undef
  | value (v : α)
  deriving Repr, DecidableEq

/-- The synchronous extent of one `Run` invocation: what is returned
(`Except.error` = a C++ exception propagating to the caller), the promise and
its state at the moment `Run` returns (`none` = no promise was ever created),
and the units enqueued on the target isolate's queue. -/
structure RunOutcome (σ ε α κ τ : Type) where
  result : Except ε (Ret α)
  promise : Option (Promise ε α)
  targetQueue : List (WorkUnit σ κ τ)

/-- Modelled from the spec: `RunSync` is only declared in the header (line
68); per the spec's sync path, after Phase 1 constructed the task the target
context is locked, Phase 2 runs, then Phase 3 runs inline and its value is
returned; "any Phase 1 or Phase 2 failure propagates as a thrown error to the
caller". -/
def RunSync (t : TaskSpec σ ε α) (task : σ) : Except ε (Ret α) :=
  match t.phase2 task with
  | .error e => .error e
  | .ok task2 =>
    match t.phase3 task2 with
    | .error e => .error e
    | .ok v => .ok (.value v)

/-- `ThreePhaseTask::Run<async, T>` (header lines 79-121), the part that runs
on the calling thread.  `a` is the template parameter `async`; `ctx`, `stack`
and `tok` are the current context, captured stack trace and async causality
token of the calling isolate.

- `async == 1`: a promise resolver is created first; the `T` constructor
  (Phase 1) runs inside a try/catch while building the `Phase2Runner`
  argument, so a `js_runtime_error` rejects the promise and nothing is
  scheduled; either way the promise is returned.
- `async == 2`: the `T` constructor runs with no try/catch; on success a
  `Phase2RunnerIgnored` is scheduled and `v8::Undefined` returned.
- any other `async`: `T self(args...)` then `self.RunSync(second_isolate)`. -/
def Run (a : Int) (t : TaskSpec σ ε α) (ctx : κ) (stack : τ) (tok : Nat) :
    RunOutcome σ ε α κ τ :=
  if a = 1 then
    match t.phase1 with
    | .ok task =>
      { result := .ok .promiseHandle
        promise := some .pending
        targetQueue := [.phase2Runner task (CalleeInfo.make () ctx stack tok)] }
    | .error e =>
      { result := .ok .promiseHandle
        promise := some (.rejected e)
        targetQueue := [] }
  else if a = 2 then
    match t.phase1 with
    | .ok task =>
      { result := .ok .undef
        promise := none
        targetQueue := [.phase2RunnerIgnored task] }
    | .error e =>
      { result := .error e
        promise := none
        targetQueue := [] }
  else
    match t.phase1 with
    | .ok task =>
      { result := RunSync t task
        promise := none
        targetQueue := [] }
    | .error e =>
      { result := .error e
        promise := none
        targetQueue := [] }

/-- Events of a complete execution of one invocation, in order.  `phase1Start`
etc. bracket each phase so that phase overlap is expressible; `settleResolve`
and `settleReject` are the settlements of the invocation's promise;
`scheduleTarget` and `scheduleOrigin` are `ScheduleTask` calls on the target
and origin isolates. -/
inductive Event (ε α : Type) where
  | phase1Start
  | phase1Ok
  | phase1Fail (e : ε)
  | phase2Start
  | phase2Ok
  | phase2Fail (e : ε)
  | phase3Start
  | phase3Ok (v : α)
  | phase3Fail (e : ε)
  | settleResolve (v : α)
  | settleReject (e : ε)
  | scheduleTarget
  | scheduleOrigin
  deriving Repr, DecidableEq

/-- Modelled from the spec: the runner enqueued back on the origin isolate
after a successful Phase 2 "runs Phase 3 and settles the handle to its return
value"; invariant I4 leaves no handle unsettled, so a Phase 3 failure rejects
the handle with the error. -/
def Phase3Runner (t : TaskSpec σ ε α) (task2 : σ) : List (Event ε α) :=
  Event.phase3Start ::
    match t.phase3 task2 with
    | .ok v => [.phase3Ok v, .settleResolve v]
    | .error e => [.phase3Fail e, .settleReject e]

/-- Modelled from the spec: the body of `Phase2Runner::Run` is in the missing
translation unit; per the spec's async-with-result path, Phase 2 executes
under the target lock; on success a second runner is enqueued on the origin
queue to run Phase 3 and settle; on failure a runner is enqueued to settle
the handle to the failure value directly and Phase 3 never runs. -/
def Phase2RunnerRun (t : TaskSpec σ ε α) (task : σ) : List (Event ε α) :=
  Event.phase2Start ::
    match t.phase2 task with
    | .ok task2 => .phase2Ok :: .scheduleOrigin :: Phase3Runner t task2
    | .error e => [.phase2Fail e, .scheduleOrigin, .settleReject e]

/-- Modelled from the spec: the body of `Phase2RunnerIgnored::Run` is in the
missing translation unit; per the spec's fire-and-forget path, "Phase 2 runs;
its result and any failure are discarded; no further scheduling occurs". -/
def Phase2RunnerIgnoredRun (t : TaskSpec σ ε α) (task : σ) : List (Event ε α) :=
  Event.phase2Start ::
    match t.phase2 task with
    | .ok _ => [.phase2Ok]
    | .error e => [.phase2Fail e]

/-- Event sequence of the sync path after Phase 1 (the `RunSync` body,
Modelled from the spec as for `RunSync` above): Phase 2 under the target
lock, then Phase 3 inline; failures throw, no promise exists to settle. -/
def RunSyncTrace (t : TaskSpec σ ε α) (task : σ) : List (Event ε α) :=
  Event.phase2Start ::
    match t.phase2 task with
    | .error e => [.phase2Fail e]
    | .ok task2 =>
      .phase2Ok :: .phase3Start ::
        match t.phase3 task2 with
        | .ok v => [.phase3Ok v]
        | .error e => [.phase3Fail e]

/-- Complete execution trace of one `Run<a>` invocation: the dispatcher's own
actions (from the header body of `Run`) followed by the draining of whatever
unit it scheduled. -/
def trace (a : Int) (t : TaskSpec σ ε α) : List (Event ε α) :=
  Event.phase1Start ::
    if a = 1 then
      match t.phase1 with
      | .ok task => .phase1Ok :: .scheduleTarget :: Phase2RunnerRun t task
      | .error e => [.phase1Fail e, .settleReject e]
    else if a = 2 then
      match t.phase1 with
      | .ok task => .phase1Ok :: .scheduleTarget :: Phase2RunnerIgnoredRun t task
      | .error e => [.phase1Fail e]
    else
      match t.phase1 with
      | .ok task => .phase1Ok :: RunSyncTrace t task
      | .error e => [.phase1Fail e]

/-- Does the event settle the invocation's promise? -/
def Event.isSettle : Event ε α → Bool
  | .settleResolve _ => true
  | .settleReject _ => true
  | _ => false

/-- Does the event schedule a work unit on some isolate's queue? -/
def Event.isSchedule : Event ε α → Bool
  | .scheduleTarget => true
  | .scheduleOrigin => true
  | _ => false

/-- Is the event the start of Phase 2? -/
def Event.isPhase2Start : Event ε α → Bool
  | .phase2Start => true
  | _ => false

/-- Is the event the start of Phase 3? -/
def Event.isPhase3Start : Event ε α → Bool
  | .phase3Start => true
  | _ => false

/-- Number of promise settlements in a trace. -/
def settleCount (es : List (Event ε α)) : Nat := es.countP Event.isSettle

/-- Number of Phase 3 executions in a trace. -/
def phase3Count (es : List (Event ε α)) : Nat := es.countP Event.isPhase3Start

/-- Projection of a trace onto phase brackets, payloads erased: 10/11 are the
start/end of Phase 1, 20/21 of Phase 2, 30/31 of Phase 3; all other events
are dropped. -/
def Event.phaseTag : Event ε α → Option Nat
  | .phase1Start => some 10
  | .phase1Ok => some 11
  | .phase1Fail _ => some 11
  | .phase2Start => some 20
  | .phase2Ok => some 21
  | .phase2Fail _ => some 21
  | .phase3Start => some 30
  | .phase3Ok _ => some 31
  | .phase3Fail _ => some 31
  | _ => none

/-- The phase brackets of a trace, in execution order. -/
def phaseTags (es : List (Event ε α)) : List Nat := es.filterMap Event.phaseTag

/-- The admissible phase-bracket sequences: Phase 1 opens and closes first,
then (possibly) Phase 2 opens and closes, then (possibly) Phase 3 opens and
closes.  In particular no phase starts before the previous one has fully
completed and no two phase brackets overlap. -/
def wellPhased (ts : List Nat) : Bool :=
  ts == [10, 11] || ts == [10, 11, 20, 21] || ts == [10, 11, 20, 21, 30, 31]

/-! Concrete tasks used to witness the theorems below. -/

/-- Concrete task whose Phase 1 (constructor) throws error `7`. -/
def ctorThrowTask : TaskSpec Nat Nat Nat where
  phase1 := .error 7
  phase2 := fun s => .ok s
  phase3 := fun s => .ok s

/-- Concrete task where every phase succeeds: Phase 1 yields state `5`,
Phase 2 adds one, Phase 3 doubles. -/
def allOkTask : TaskSpec Nat Nat Nat where
  phase1 := .ok 5
  phase2 := fun s => .ok (s + 1)
  phase3 := fun s => .ok (2 * s)

/-- Concrete task whose Phase 1 succeeds and whose Phase 2 throws error `9`. -/
def phase2ThrowTask : TaskSpec Nat Nat Nat where
  phase1 := .ok 5
  phase2 := fun _ => .error 9
  phase3 := fun s => .ok s

/-- Claim C1: async-with-result mode never throws to the immediate caller —
`Run` always returns the deferred-result handle — and over the complete
execution the handle is settled exactly once, whether Phase 1, Phase 2 or
Phase 3 is the point of failure (or none is). -/
theorem run_async_result_settles_once {σ ε α κ τ : Type}
    (t : TaskSpec σ ε α) (ctx : κ) (stack : τ) (tok : Nat) :
    (Run 1 t ctx stack tok).result = .ok .promiseHandle ∧
    (Run 1 t ctx stack tok).promise.isSome = true ∧
    settleCount (trace 1 t) = 1 := by
  refine ⟨?_, ?_, ?_⟩
  · cases h : t.phase1 <;> simp [Run, h]
  · cases h : t.phase1 <;> simp [Run, h]
  · cases h1 : t.phase1 with
    | error e => simp [trace, h1, settleCount, Event.isSettle]
    | ok s =>
      cases h2 : t.phase2 s with
      | error e =>
        simp [trace, h1, h2, Phase2RunnerRun, settleCount, Event.isSettle]
      | ok s2 =>
        cases h3 : t.phase3 s2 <;>
          simp [trace, h1, h2, h3, Phase2RunnerRun, Phase3Runner, settleCount,
            Event.isSettle]

/-- Witness for `run_async_result_settles_once` at `phase2ThrowTask`. -/
theorem run_async_result_settles_once_witness :
    (Run 1 phase2ThrowTask 0 0 0).result = .ok .promiseHandle ∧
    (Run 1 phase2ThrowTask 0 0 0).promise.isSome = true ∧
    settleCount (trace 1 phase2ThrowTask) = 1 :=
  run_async_result_settles_once phase2ThrowTask 0 0 0

/-- Claim C2: in async-with-result mode, a Phase 1 throw leaves the returned
handle already rejected with the thrown error at the moment `Run` returns,
and nothing is enqueued on the target isolate's queue. -/
theorem run_async_result_phase1_throw {σ ε α κ τ : Type}
    (t : TaskSpec σ ε α) (e : ε) (ctx : κ) (stack : τ) (tok : Nat)
    (h : t.phase1 = .error e) :
    (Run 1 t ctx stack tok).promise = some (.rejected e) ∧
    (Run 1 t ctx stack tok).result = .ok .promiseHandle ∧
    (Run 1 t ctx stack tok).targetQueue = [] := by
  simp [Run, h]

/-- Witness for `run_async_result_phase1_throw` at `ctorThrowTask`. -/
theorem run_async_result_phase1_throw_witness :
    ctorThrowTask.phase1 = .error 7 ∧
    (Run 1 ctorThrowTask 0 0 0).promise = some (.rejected 7) ∧
    (Run 1 ctorThrowTask 0 0 0).targetQueue = [] :=
  ⟨rfl, (run_async_result_phase1_throw ctorThrowTask 7 0 0 0 rfl).1,
    (run_async_result_phase1_throw ctorThrowTask 7 0 0 0 rfl).2.2⟩

/-- Claim C3: in synchronous mode (`async` neither 1 nor 2) no
deferred-result handle is ever created, and a Phase 1 or Phase 2 failure
propagates as a thrown error to the caller. -/
theorem run_sync_failure_no_handle {σ ε α κ τ : Type}
    (a : Int) (t : TaskSpec σ ε α) (ctx : κ) (stack : τ) (tok : Nat)
    (h1 : a ≠ 1) (h2 : a ≠ 2) :
    (Run a t ctx stack tok).promise = none ∧
    (∀ e, t.phase1 = .error e → (Run a t ctx stack tok).result = .error e) ∧
    (∀ s e, t.phase1 = .ok s → t.phase2 s = .error e →
      (Run a t ctx stack tok).result = .error e) := by
  refine ⟨?_, ?_, ?_⟩
  · cases h : t.phase1 <;> simp [Run, h1, h2, h]
  · intro e he
    simp [Run, h1, h2, he]
  · intro s e hs he
    simp [Run, h1, h2, hs, RunSync, he]

/-- Witness for `run_sync_failure_no_handle` at `async = 0`, `ctorThrowTask`. -/
theorem run_sync_failure_no_handle_witness :
    (Run 0 ctorThrowTask 0 0 0).promise = none ∧
    (Run 0 ctorThrowTask 0 0 0).result = .error 7 := by
  have h := run_sync_failure_no_handle 0 ctorThrowTask 0 0 0 (by decide) (by decide)
  exact ⟨h.1, h.2.1 7 rfl⟩

/-- Claim C9: every value of the `async` template parameter other than 1 and
2 takes the synchronous path — the dispatch defaults to sync rather than
rejecting out-of-range modes.  Both the call-time outcome and the complete
execution trace coincide with those of `async = 0`. -/
theorem run_default_mode_is_sync {σ ε α κ τ : Type}
    (a : Int) (t : TaskSpec σ ε α) (ctx : κ) (stack : τ) (tok : Nat)
    (h1 : a ≠ 1) (h2 : a ≠ 2) :
    Run a t ctx stack tok = Run 0 t ctx stack tok ∧ trace a t = trace 0 t := by
  constructor <;> simp [Run, trace, h1, h2]

/-- Witness for `run_default_mode_is_sync` at `async = 3` and `async = -1`. -/
theorem run_default_mode_is_sync_witness :
    Run 3 allOkTask 0 0 0 = Run 0 allOkTask 0 0 0 ∧
    Run (-1) allOkTask 0 0 0 = Run 0 allOkTask 0 0 0 :=
  ⟨(run_default_mode_is_sync 3 allOkTask 0 0 0 (by decide) (by decide)).1,
    (run_default_mode_is_sync (-1) allOkTask 0 0 0 (by decide) (by decide)).1⟩

/-- Claim C10: in fire-and-forget mode a Phase 1 throw propagates
synchronously to the `Run` caller — this branch has no try/catch — so no
acknowledgment is returned, no promise exists, and nothing is scheduled. -/
theorem run_ignored_phase1_throw {σ ε α κ τ : Type}
    (t : TaskSpec σ ε α) (e : ε) (ctx : κ) (stack : τ) (tok : Nat)
    (h : t.phase1 = .error e) :
    Run 2 t ctx stack tok =
      { result := .error e, promise := none, targetQueue := [] } := by
  simp [Run, h]

/-- Witness for `run_ignored_phase1_throw` at `ctorThrowTask`. -/
theorem run_ignored_phase1_throw_witness :
    ctorThrowTask.phase1 = .error 7 ∧
    Run 2 ctorThrowTask 0 0 0 =
      { result := .error 7, promise := none, targetQueue := [] } :=
  ⟨rfl, run_ignored_phase1_throw ctorThrowTask 7 0 0 0 rfl⟩

/-- Claim C4: in fire-and-forget mode with a successful Phase 1, `Run`
returns `v8::Undefined` immediately after enqueuing a `Phase2RunnerIgnored`
bundling only the task (no capsule, no origin linkage); when that unit later
runs, Phase 2's outcome is discarded — it settles nothing and schedules
nothing further. -/
theorem run_fire_and_forget {σ ε α κ τ : Type}
    (t : TaskSpec σ ε α) (ctx : κ) (stack : τ) (tok : Nat) (s : σ)
    (h : t.phase1 = .ok s) :
    Run 2 t ctx stack tok =
      { result := .ok .undef, promise := none,
        targetQueue := [.phase2RunnerIgnored s] } ∧
    settleCount (Phase2RunnerIgnoredRun t s) = 0 ∧
    (Phase2RunnerIgnoredRun t s).countP Event.isSchedule = 0 := by
  refine ⟨by simp [Run, h], ?_, ?_⟩ <;>
    cases h2 : t.phase2 s <;>
      simp [Phase2RunnerIgnoredRun, h2, settleCount, Event.isSettle,
        Event.isSchedule]

/-- Witness for `run_fire_and_forget` at `allOkTask`. -/
theorem run_fire_and_forget_witness :
    Run 2 allOkTask 0 0 0 =
      { result := .ok .undef, promise := none,
        targetQueue := [.phase2RunnerIgnored 5] } ∧
    settleCount (Phase2RunnerIgnoredRun allOkTask 5) = 0 ∧
    (Phase2RunnerIgnoredRun allOkTask 5).countP Event.isSchedule = 0 :=
  run_fire_and_forget allOkTask 0 0 0 5 rfl

/-- The fire-and-forget trace never contains a Phase 3 event. -/
theorem phase3Count_trace_two {σ ε α : Type} (t : TaskSpec σ ε α) :
    phase3Count (trace 2 t) = 0 := by
  cases h1 : t.phase1 with
  | error e => simp [trace, h1, phase3Count, Event.isPhase3Start]
  | ok s =>
    cases h2 : t.phase2 s <;>
      simp [trace, h1, h2, Phase2RunnerIgnoredRun, phase3Count,
        Event.isPhase3Start]

/-- In any mode, the trace contains either no Phase 3 event, or exactly one —
and in the latter case the mode is not fire-and-forget and Phase 1 and
Phase 2 both succeeded. -/
theorem phase3Count_trace_cases {σ ε α : Type} (a : Int) (t : TaskSpec σ ε α) :
    phase3Count (trace a t) = 0 ∨
      (phase3Count (trace a t) = 1 ∧ a ≠ 2 ∧
        ∃ s s2, t.phase1 = .ok s ∧ t.phase2 s = .ok s2) := by
  by_cases ha1 : a = 1
  · subst ha1
    cases h1 : t.phase1 with
    | error e => left; simp [trace, h1, phase3Count, Event.isPhase3Start]
    | ok s =>
      cases h2 : t.phase2 s with
      | error e =>
        left
        simp [trace, h1, h2, Phase2RunnerRun, phase3Count, Event.isPhase3Start]
      | ok s2 =>
        right
        refine ⟨?_, by decide, s, s2, rfl, h2⟩
        cases h3 : t.phase3 s2 <;>
          simp [trace, h1, h2, h3, Phase2RunnerRun, Phase3Runner, phase3Count,
            Event.isPhase3Start]
  · by_cases ha2 : a = 2
    · subst ha2
      left
      exact phase3Count_trace_two t
    · cases h1 : t.phase1 with
      | error e => left; simp [trace, ha1, ha2, h1, phase3Count, Event.isPhase3Start]
      | ok s =>
        cases h2 : t.phase2 s with
        | error e =>
          left
          simp [trace, ha1, ha2, h1, h2, RunSyncTrace, phase3Count,
            Event.isPhase3Start]
        | ok s2 =>
          right
          refine ⟨?_, ha2, s, s2, rfl, h2⟩
          cases h3 : t.phase3 s2 <;>
            simp [trace, ha1, ha2, h1, h2, h3, RunSyncTrace, phase3Count,
              Event.isPhase3Start]

/-- Claim C5: Phase 3 runs at most once, and only if Phase 2 completed
successfully in a mode that requests a result (any mode but fire-and-forget);
in fire-and-forget mode Phase 3 is never invoked. -/
theorem phase3_at_most_once {σ ε α : Type} (a : Int) (t : TaskSpec σ ε α) :
    phase3Count (trace a t) ≤ 1 ∧
    (1 ≤ phase3Count (trace a t) →
      a ≠ 2 ∧ ∃ s s2, t.phase1 = .ok s ∧ t.phase2 s = .ok s2) ∧
    phase3Count (trace 2 t) = 0 := by
  rcases phase3Count_trace_cases a t with h | ⟨h, hne, hex⟩
  · exact ⟨by omega, fun hle => absurd (h ▸ hle) (by decide),
      phase3Count_trace_two t⟩
  · exact ⟨by omega, fun _ => ⟨hne, hex⟩, phase3Count_trace_two t⟩

/-- Witness for `phase3_at_most_once` at `async = 1`, `allOkTask`. -/
theorem phase3_at_most_once_witness :
    phase3Count (trace 1 allOkTask) ≤ 1 ∧
    ((1 : Int) ≠ 2 ∧ ∃ s s2, allOkTask.phase1 = .ok s ∧
      allOkTask.phase2 s = .ok s2) ∧
    phase3Count (trace 2 allOkTask) = 0 :=
  ⟨(phase3_at_most_once 1 allOkTask).1,
    (phase3_at_most_once 1 allOkTask).2.1 (by decide),
    (phase3_at_most_once 1 allOkTask).2.2⟩

/-- In every mode the phase brackets of the trace form one of the three
admissible non-overlapping sequences. -/
theorem wellPhased_trace {σ ε α : Type} (a : Int) (t : TaskSpec σ ε α) :
    wellPhased (phaseTags (trace a t)) = true := by
  by_cases ha1 : a = 1
  · subst ha1
    cases h1 : t.phase1 with
    | error e => simp [trace, h1, phaseTags, Event.phaseTag, wellPhased]
    | ok s =>
      cases h2 : t.phase2 s with
      | error e =>
        simp [trace, h1, h2, Phase2RunnerRun, phaseTags, Event.phaseTag,
          wellPhased]
      | ok s2 =>
        cases h3 : t.phase3 s2 <;>
          simp [trace, h1, h2, h3, Phase2RunnerRun, Phase3Runner, phaseTags,
            Event.phaseTag, wellPhased]
  · by_cases ha2 : a = 2
    · subst ha2
      cases h1 : t.phase1 with
      | error e => simp [trace, h1, phaseTags, Event.phaseTag, wellPhased]
      | ok s =>
        cases h2 : t.phase2 s <;>
          simp [trace, h1, h2, Phase2RunnerIgnoredRun, phaseTags,
            Event.phaseTag, wellPhased]
    · cases h1 : t.phase1 with
      | error e => simp [trace, ha1, ha2, h1, phaseTags, Event.phaseTag, wellPhased]
      | ok s =>
        cases h2 : t.phase2 s with
        | error e =>
          simp [trace, ha1, ha2, h1, h2, RunSyncTrace, phaseTags,
            Event.phaseTag, wellPhased]
        | ok s2 =>
          cases h3 : t.phase3 s2 <;>
            simp [trace, ha1, ha2, h1, h2, h3, RunSyncTrace, phaseTags,
              Event.phaseTag, wellPhased]

/-- When Phase 1 succeeds, the trace contains exactly one Phase 2 start,
whatever the mode. -/
theorem phase2Start_count_trace {σ ε α : Type} (a : Int) (t : TaskSpec σ ε α)
    (s : σ) (h1 : t.phase1 = .ok s) :
    (trace a t).countP Event.isPhase2Start = 1 := by
  by_cases ha1 : a = 1
  · subst ha1
    cases h2 : t.phase2 s with
    | error e =>
      simp [trace, h1, h2, Phase2RunnerRun, Event.isPhase2Start]
    | ok s2 =>
      cases h3 : t.phase3 s2 <;>
        simp [trace, h1, h2, h3, Phase2RunnerRun, Phase3Runner,
          Event.isPhase2Start]
  · by_cases ha2 : a = 2
    · subst ha2
      cases h2 : t.phase2 s <;>
        simp [trace, h1, h2, Phase2RunnerIgnoredRun, Event.isPhase2Start]
    · cases h2 : t.phase2 s with
      | error e =>
        simp [trace, ha1, ha2, h1, h2, RunSyncTrace, Event.isPhase2Start]
      | ok s2 =>
        cases h3 : t.phase3 s2 <;>
          simp [trace, ha1, ha2, h1, h2, h3, RunSyncTrace, Event.isPhase2Start]

/-- Claim C6: in every mode the phases of a task are bracketed in order —
Phase 1 completes before Phase 2 starts, Phase 3 (when reached) starts only
after Phase 2 completes, and no two phase brackets overlap (the execution
model serializes work units, as the queues and locks do) — and when Phase 1
succeeds, Phase 2 executes exactly once. -/
theorem phases_ordered_no_overlap {σ ε α : Type} (a : Int) (t : TaskSpec σ ε α) :
    wellPhased (phaseTags (trace a t)) = true ∧
    ∀ s, t.phase1 = .ok s → (trace a t).countP Event.isPhase2Start = 1 :=
  ⟨wellPhased_trace a t, fun s hs => phase2Start_count_trace a t s hs⟩

/-- Witness for `phases_ordered_no_overlap` at `async = 1`, `allOkTask`. -/
theorem phases_ordered_no_overlap_witness :
    wellPhased (phaseTags (trace 1 allOkTask)) = true ∧
    (trace 1 allOkTask).countP Event.isPhase2Start = 1 :=
  ⟨(phases_ordered_no_overlap 1 allOkTask).1,
    (phases_ordered_no_overlap 1 allOkTask).2 5 rfl⟩

/-- Error delivered when a queued linked runner's context was disposed before
the runner could execute. -/
inductive CtxError where
  | contextUnavailable
  deriving Repr, DecidableEq

/-- An operation performed on the pending deferred-result handle. -/
inductive HandleOp where
  | reject (e : CtxError)
  deriving Repr, DecidableEq

/-- Modelled from the spec: the body of `Phase2Runner::~Phase2Runner` is in
the missing translation unit.  `did_run` (header line 47) records whether the
runner executed.  Per the spec, a linked runner destroyed without ever having
executed makes a best-effort attempt to settle the handle to a
context-unavailable failure when the origin context is still reachable, and
silently drops the obligation when the origin context is gone; a runner that
did run has no remaining obligation.  The result lists every operation the
destructor performs on the remote handle. -/
def Phase2RunnerDtor (didRun originAlive : Bool) : List HandleOp :=
  if didRun then []
  else if originAlive then [.reject .contextUnavailable]
  else []

/-- Claim C7: a linked runner destroyed without having executed settles the
handle to a context-unavailable failure when the origin context is reachable,
silently drops the obligation when it is gone, and never touches the handle
once the origin context is disposed (whether or not the runner had run). -/
theorem linked_runner_destroyed_unrun (didRun : Bool) :
    Phase2RunnerDtor false true = [.reject .contextUnavailable] ∧
    Phase2RunnerDtor false false = [] ∧
    Phase2RunnerDtor didRun false = [] := by
  refine ⟨rfl, rfl, ?_⟩
  cases didRun <;> rfl

/-- Witness for `linked_runner_destroyed_unrun` at `didRun = true`. -/
theorem linked_runner_destroyed_unrun_witness :
    Phase2RunnerDtor false true = [.reject .contextUnavailable] ∧
    Phase2RunnerDtor false false = [] ∧
    Phase2RunnerDtor true false = [] :=
  linked_runner_destroyed_unrun true

/-- Claim C8: the resume capsule captures exactly four things — the pending
resolver, the origin context, the stack-trace snapshot and the causality
token: each is stored by construction, a `CalleeInfo` is nothing but those
four components, and destruction releases exactly the captured remote
references. -/
theorem callee_info_captures {ρ κ τ : Type} (r : ρ) (c : κ) (s : τ) (tok : Nat) :
    (CalleeInfo.make r c s tok).remotes.resolver = r ∧
    (CalleeInfo.make r c s tok).remotes.context = c ∧
    (CalleeInfo.make r c s tok).remotes.stackTrace = s ∧
    (CalleeInfo.make r c s tok).asyncCtx = tok ∧
    (∀ ci : CalleeInfo ρ κ τ,
      ci = CalleeInfo.make ci.remotes.resolver ci.remotes.context
        ci.remotes.stackTrace ci.asyncCtx) ∧
    CalleeInfo.dtorReleases (CalleeInfo.make r c s tok) = (r, c, s) := by
  refine ⟨rfl, rfl, rfl, rfl, ?_, rfl⟩
  intro ci
  rfl

/-- Witness for `callee_info_captures` at concrete values. -/
theorem callee_info_captures_witness :
    (CalleeInfo.make 1 2 3 4 : CalleeInfo Nat Nat Nat).asyncCtx = 4 ∧
    CalleeInfo.dtorReleases (CalleeInfo.make 1 2 3 4 : CalleeInfo Nat Nat Nat) =
      (1, 2, 3) :=
  ⟨(callee_info_captures 1 2 3 4).2.2.2.1,
    (callee_info_captures 1 2 3 4).2.2.2.2.2⟩

end ThreePhase
